import Mathlib

/-
  Verification development for the OKR reporting engine.

  The definitions below are a shallow embedding of the Python source:
    * goal.py   — DateUtils, User.calculate_score, OKRCalculator,
                  the weekly/monthly shift reconciliation, _assess_user_risk
    * server.py — _get_tree_logic (alignment tree builder)

  Numeric values carried by the engine (goal/KR current values, checkin
  values, shifts) are modelled as rationals: the Python code manipulates
  them with plain +,-,<,== and the properties under study are exact
  algebraic identities.  Timestamps are modelled as integers (epoch
  seconds); a missing/unparseable timestamp (pandas NaT) is `none`.
-/

namespace OKR

/-! ## DateUtils (goal.py)

`_get_weeks_in_current_month` walks the days of a month and produces
"weeks": for each step it takes the Monday of the current day's week
(clipped at the first of the month), adds six days (clipped at the last
day of the month), records the span, and continues from the day after
the span's end.  Days inside one month are represented by their
day-of-month number; the weekday is computed from the proleptic
Gregorian day count (rata die), with Monday = 0 exactly as Python's
datetime.weekday(). -/

def QUARTER_START_MONTHS : List Nat := [1, 4, 7, 10]

def isLeapYear (y : Nat) : Bool :=
  (y % 4 == 0 && y % 100 != 0) || (y % 400 == 0)

def daysInMonth (y m : Nat) : Nat :=
  if m = 1 then 31
  else if m = 2 then (if isLeapYear y then 29 else 28)
  else if m = 3 then 31
  else if m = 4 then 30
  else if m = 5 then 31
  else if m = 6 then 30
  else if m = 7 then 31
  else if m = 8 then 31
  else if m = 9 then 30
  else if m = 10 then 31
  else if m = 11 then 30
  else 31

/-- Number of days in the months of year `y` strictly before month `m`. -/
def daysBeforeMonth (y m : Nat) : Nat :=
  (List.range m).foldl (fun acc i => if i = 0 then acc else acc + daysInMonth y i) 0

/-- Rata die day number of the date `(y, m, d)` in the proleptic Gregorian
calendar; `rataDie 1 1 1 = 1`. -/
def rataDie (y m d : Nat) : Nat :=
  365 * (y - 1) + (y - 1) / 4 - (y - 1) / 100 + (y - 1) / 400 + daysBeforeMonth y m + d

/-- Weekday with Monday = 0 .. Sunday = 6, as Python's datetime.weekday().
(0001-01-01 was a Monday in the proleptic Gregorian calendar.) -/
def weekdayMon0 (y m d : Nat) : Nat :=
  (rataDie y m d - 1) % 7

structure WeekSpan where
  week_number : Nat
  start_day : Nat
  end_day : Nat
deriving Repr, DecidableEq

/-- Loop body of DateUtils._get_weeks_in_current_month.  `current` is the
day-of-month the iteration is at; `last` the last day of the month.  The
loop advances by at least one day per iteration, so a fuel of 32 is
enough for any month. -/
def weeksInMonthAux (y m last : Nat) : Nat → Nat → List WeekSpan → List WeekSpan
  | 0, _, acc => acc
  | n + 1, current, acc =>
    if current ≤ last then
      let ws := max (current - weekdayMon0 y m current) 1
      let we := min (ws + 6) last
      weeksInMonthAux y m last n (we + 1) (acc ++ [⟨acc.length + 1, ws, we⟩])
    else acc

def weeksInMonth (y m : Nat) : List WeekSpan :=
  weeksInMonthAux y m (daysInMonth y m) 32 1 []

/-- Week number containing day `d` of month `(y, m)`: the first recorded
span whose range contains `d` (DateUtils.is_week_4_or_5_of_quarter_start_month
scans the spans in order and breaks at the first hit). -/
def currentWeekNumber (y m d : Nat) : Option Nat :=
  ((weeksInMonth y m).find? (fun w => w.start_day ≤ d && d ≤ w.end_day)).map
    (fun w => w.week_number)

/-- DateUtils.is_week_4_or_5_of_quarter_start_month for the date `(y, m, d)`. -/
def isWeek45OfQuarterStartMonth (y m d : Nat) : Bool :=
  if m ∉ QUARTER_START_MONTHS then false
  else match currentWeekNumber y m d with
    | some n => n = 4 || n = 5
    | none => false

/-- DateUtils.should_calculate_monthly_shift for the date `(y, m, d)`. -/
def shouldCalculateMonthlyShift (y m d : Nat) : Bool :=
  if m ∉ QUARTER_START_MONTHS then true
  else isWeek45OfQuarterStartMonth y m d

/-! ## Shift reconciliation (goal.py, _calculate_weekly_shift_data and
_calculate_monthly_shift_data)

Both functions receive a per-user frame from which three aggregates are
computed: `current_value` (OKRCalculator.calculate_current_value),
`reference_value` (OKRCalculator.calculate_reference_value) and
`final_okr_goal_shift` (_calculate_final_okr_goal_shift).  The
reconciliation itself is a pure function of those three rationals (plus,
for the monthly variant, the week-4/5-of-quarter-start-month test on the
current date), so it is embedded as such. -/

structure ShiftData where
  okr_shift : ℚ
  original_shift : ℚ
  current_value : ℚ
  reference_value : ℚ
  original_reference_value : ℚ
  legacy_okr_shift : ℚ
  adjustment_applied : Bool
  reference_adjustment_applied : Bool
deriving Repr, DecidableEq

/-- goal.py _calculate_weekly_shift_data, reconciliation part.
`c` = current_value, `r` = reference_value, `s` = final_okr_goal_shift. -/
def calculateWeeklyShiftData (c r s : ℚ) : ShiftData :=
  if r > c then
    { okr_shift := s
      original_shift := s
      current_value := c
      reference_value := c - s
      original_reference_value := r
      legacy_okr_shift := c - r
      adjustment_applied := false
      reference_adjustment_applied := true }
  else if r < c ∧ c - r ≠ s then
    { okr_shift := c - r
      original_shift := s
      current_value := c
      reference_value := r
      original_reference_value := r
      legacy_okr_shift := c - r
      adjustment_applied := true
      reference_adjustment_applied := false }
  else
    { okr_shift := s
      original_shift := s
      current_value := c
      reference_value := r
      original_reference_value := r
      legacy_okr_shift := c - r
      adjustment_applied := false
      reference_adjustment_applied := false }

/-- goal.py _calculate_monthly_shift_data, reconciliation part, for a run
whose current date is `(y, m, d)`. -/
def calculateMonthlyShiftData (y m d : Nat) (c r s : ℚ) : ShiftData :=
  if isWeek45OfQuarterStartMonth y m d then
    { okr_shift := c
      original_shift := s
      current_value := c
      reference_value := 0
      original_reference_value := r
      legacy_okr_shift := c
      adjustment_applied := true
      reference_adjustment_applied := true }
  else if r > c then
    { okr_shift := s
      original_shift := s
      current_value := c
      reference_value := c - s
      original_reference_value := r
      legacy_okr_shift := c - r
      adjustment_applied := false
      reference_adjustment_applied := true }
  else if r < c ∧ c - r ≠ s then
    { okr_shift := c - r
      original_shift := s
      current_value := c
      reference_value := r
      original_reference_value := r
      legacy_okr_shift := c - r
      adjustment_applied := true
      reference_adjustment_applied := false }
  else
    { okr_shift := s
      original_shift := s
      current_value := c
      reference_value := r
      original_reference_value := r
      legacy_okr_shift := c - r
      adjustment_applied := false
      reference_adjustment_applied := false }

end OKR

namespace OKR

/-! ## OKRCalculator (goal.py)

The merged frame (`final_df` / a per-user slice of it) is a list of rows;
each row joins one goal/KR pair with at most one checkin.  Fields used by
calculate_reference_value and calculate_kr_shift:

  * `kr_id`     — "" models a missing id (NaN), dropped by dropna();
  * `goal_name` — the goal the KR belongs to;
  * `kr_current_value` — the KR's current value (to_numeric, NaN → 0,
    absorbed into the rational field);
  * `checkin_since` — epoch timestamp of the row's checkin; `none` models
    a missing/unparseable timestamp (pandas NaT), which fails every
    comparison in a filter exactly as NaT does;
  * `checkin_name` — "" models a missing/empty checkin name;
  * `checkin_kr_current_value` — the checkin's recorded value
    (to_numeric, NaN → 0, absorbed into the rational field). -/

structure Row where
  kr_id : String
  goal_name : String
  kr_current_value : ℚ
  checkin_since : Option Int
  checkin_name : String
  checkin_kr_current_value : ℚ
deriving Repr, DecidableEq

/-- pandas Series.unique: first occurrence of every element, in order.
(`seen` accumulates the values already emitted.) -/
def uniqueFirstAux {α : Type} [DecidableEq α] (seen : List α) : List α → List α
  | [] => []
  | a :: l => if a ∈ seen then uniqueFirstAux seen l else a :: uniqueFirstAux (a :: seen) l

def uniqueFirst {α : Type} [DecidableEq α] (l : List α) : List α :=
  uniqueFirstAux [] l

/-- `checkin_since_dt <= reference_date`: false for a missing timestamp. -/
def sinceLe (r : Row) (t : Int) : Bool :=
  match r.checkin_since with
  | some u => u ≤ t
  | none => false

/-- `checkin_name.notna() & (checkin_name != '')`. -/
def named (r : Row) : Bool :=
  r.checkin_name ≠ ""

/-- The `actual_checkins_before_date` filter of calculate_reference_value:
checkins at or before the reference instant with a real name.  Note that
there is no lower time bound here. -/
def actualCheckinsBefore (ref : Int) (krData : List Row) : List Row :=
  krData.filter (fun r => sinceLe r ref && named r)

/-- `sort_values('checkin_since_dt').iloc[-1]` on a nonempty list: the last
row attaining the maximal timestamp (pandas sort is stable, so among equal
timestamps the last one in frame order wins).  Rows reaching this function
always carry a `some` timestamp. -/
def latestCheckin (b : Row) : List Row → Row
  | [] => b
  | r :: rs =>
    latestCheckin (if (r.checkin_since.getD 0) ≥ (b.checkin_since.getD 0) then r else b) rs

/-- Per-KR part of calculate_reference_value: value of the latest checkin
at or before `ref`, defaulting to 0 when no such checkin exists. -/
def krRefValueFromData (ref : Int) (krData : List Row) : ℚ :=
  match actualCheckinsBefore ref krData with
  | [] => 0
  | r :: rs => (latestCheckin r rs).checkin_kr_current_value

structure KrDetail where
  kr_id : String
  goal_name : String
  kr_value : ℚ
deriving Repr, DecidableEq

/-- `kr_data.iloc[0]['goal_name']` with the code's fallback label for an
empty slice. -/
def krGoalName (kr : String) (krData : List Row) : String :=
  match krData with
  | [] => "Unknown_" ++ kr
  | r :: _ => r.goal_name

/-- The kr_details entry calculate_reference_value records for KR `kr`. -/
def krDetailFor (ref : Int) (rows : List Row) (kr : String) : KrDetail :=
  let krData := rows.filter (fun r => r.kr_id = kr)
  { kr_id := kr
    goal_name := krGoalName kr krData
    kr_value := krRefValueFromData ref krData }

/-- `df['kr_id'].dropna().unique()`. -/
def uniqueKrs (rows : List Row) : List String :=
  uniqueFirst ((rows.filter (fun r => r.kr_id ≠ "")).map (fun r => r.kr_id))

/-- `np.mean`, guarded to 0 on an empty list exactly as the callers guard
their aggregates. -/
def mean (l : List ℚ) : ℚ :=
  if l = [] then 0 else l.sum / (l.length : ℚ)

/-- The `final_goal_values` grouping of calculate_reference_value: the
kr_details are grouped by goal name (defaultdict, key order = first
occurrence). -/
def goalGroups (details : List KrDetail) : List (String × List ℚ) :=
  (uniqueFirst (details.map (fun kd => kd.goal_name))).map
    (fun g => (g, (details.filter (fun kd => kd.goal_name = g)).map (fun kd => kd.kr_value)))

/-- OKRCalculator.calculate_reference_value: mean over goals of the mean
of their KRs' latest checkin values at or before `ref`; also returns the
kr_details audit list.  (The `goal_values_dict`/`normalized_goal_values`
block of the source is dead code: the returned average is recomputed from
`kr_details` via `final_goal_values`, which is what is embedded.) -/
def calculate_reference_value (ref : Int) (rows : List Row) : ℚ × List KrDetail :=
  let details := (uniqueKrs rows).map (krDetailFor ref rows)
  let finalAverages := (goalGroups details).map (fun p => mean p.2)
  (mean finalAverages, details)

/-- The valid-checkin window of calculate_kr_shift: at or before the
reference date AND at or after the quarter start. -/
def windowOk (qstart ref : Int) (r : Row) : Bool :=
  match r.checkin_since with
  | some t => qstart ≤ t && t ≤ ref
  | none => false

/-- OKRCalculator.calculate_kr_shift for the KR of one row: current value
minus the value of the latest named checkin inside
[quarter_start, reference_date], with 0 as reference value when no such
checkin exists. -/
def calculate_kr_shift (krId : String) (currentVal : ℚ) (qstart ref : Int)
    (finalRows : List Row) : ℚ :=
  if krId = "" then currentVal
  else
    let krHistory := finalRows.filter (fun r => r.kr_id = krId)
    if krHistory = [] then currentVal
    else
      let valid := krHistory.filter (fun r => windowOk qstart ref r && named r)
      let referenceVal : ℚ :=
        match valid with
        | [] => 0
        | r :: rs => (latestCheckin r rs).checkin_kr_current_value
      currentVal - referenceVal

end OKR

namespace OKR

/-- Reference value drawn from a nonempty checkin list (the shared match
of krRefValueFromData and calculate_kr_shift). -/
def krShiftRefVal : List Row → ℚ
  | [] => 0
  | r :: rs => (latestCheckin r rs).checkin_kr_current_value

end OKR

namespace OKR

/-! ## ScoreEngine and ReportAggregator (goal.py User.calculate_score and
_assess_user_risk; claims C8, C9) -/

/-- The movement threshold table of User.calculate_score without its final
(float('inf'), 2.5) sentinel; since every rational is below +inf, the
sentinel is embedded as the fallback branch of the lookup. -/
def movement_scores : List (ℚ × ℚ) :=
  [(10, 0.15), (25, 0.25), (30, 0.5), (50, 0.75), (80, 1.25), (99, 1.5)]

/-- The `for threshold, points in movement_scores: if movement < threshold:
score += points; break` loop: the first entry whose threshold exceeds the
movement decides the bonus. -/
def movementBonus (movement : ℚ) : ℚ :=
  match movement_scores.find? (fun p => movement < p.1) with
  | some p => p.2
  | none => 2.5

structure ScoreUser where
  checkin : Nat
  co_OKR : Nat
  dich_chuyen_OKR : ℚ
deriving Repr, DecidableEq

/-- Python's round(x, 2).  Python rounds ties to even, this embedding
rounds ties up; the two agree on every value whose hundredfold is an
integer, which covers every score User.calculate_score can produce (all
summands are multiples of 1/20). -/
def round2 (x : ℚ) : ℚ := (⌊x * 100 + 1 / 2⌋ : ℚ) / 100

/-- User.calculate_score: base 0.5, +0.5 for the checkin flag, +1 for the
has-OKR flag, plus the movement bonus, rounded to 2 decimals. -/
def calculate_score (u : ScoreUser) : ℚ :=
  round2 (0.5 + (if u.checkin = 1 then 0.5 else 0) + (if u.co_OKR = 1 then 1 else 0)
    + movementBonus u.dich_chuyen_OKR)

/-- The per-user inputs read by _assess_user_risk out of its three input
dicts (each .get with default 0). -/
structure RiskInput where
  okr_shift : ℚ
  checkin_count_period : Nat
  checkin_frequency_per_week : ℚ
  kr_details_count : Nat

structure RiskAssessment where
  risk_score : Nat
  risk_level : String
  risk_factors : List String
deriving Repr, DecidableEq

/-- goal.py _assess_user_risk: four independently accumulated penalties,
then the threshold classification (the source labels the levels in
Vietnamese: Cao = High, Trung bình = Medium, Thấp = Low). -/
def assess_user_risk (i : RiskInput) : RiskAssessment :=
  let score1 : Nat := if i.okr_shift < 0 then 30 else 0
  let score2 : Nat := score1 + (if i.checkin_count_period < 2 then 25 else 0)
  let score3 : Nat := score2 + (if i.checkin_frequency_per_week < 1 then 20 else 0)
  let riskScore : Nat := score3 + (if i.kr_details_count = 0 then 25 else 0)
  let factors : List String :=
    (if i.okr_shift < 0 then ["Tiến độ OKR âm"] else []) ++
    (if i.checkin_count_period < 2 then ["Ít check-in trong kỳ"] else []) ++
    (if i.checkin_frequency_per_week < 1 then ["Tần suất check-in thấp"] else []) ++
    (if i.kr_details_count = 0 then ["Không có KR hoạt động"] else [])
  let level : String :=
    if riskScore ≥ 60 then "Cao" else if riskScore ≥ 30 then "Trung bình" else "Thấp"
  ⟨riskScore, level, factors⟩

end OKR

namespace OKR

/-! ## Alignment tree builder (server.py _get_tree_logic; claims C4, C5, C10)

Inputs, as the Python function receives them after its fetch helpers:

  * `targets` — the rows of the DataFrame produced by parse_targets_logic
    (one row per dept/team alignment target, each tagged with its company
    target; `list_goal_id` carries the target's secondary membership list
    fetched via get_target_sub_goal_ids — the tree builder never reads it);
  * `goals`  — the user goals (string fields already passed through str();
    "" models an absent value);
  * `krs`    — the key results;
  * `umap`   — the user id → name dict.

Python dicts are modelled as association lists with insertion-order
semantics: setting an existing key overwrites in place, a new key is
appended. -/

def dictInsert {α : Type} (k : String) (v : α) :
    List (String × α) → List (String × α)
  | [] => [(k, v)]
  | (k2, v2) :: rest => if k2 = k then (k, v) :: rest else (k2, v2) :: dictInsert k v rest

def dictGet {α : Type} (d : List (String × α)) (k : String) : Option α :=
  (d.find? (fun p => p.1 = k)).map (fun p => p.2)

/-- server.py DEPT_ID_MAPPING. -/
def DEPT_ID_MAPPING : List (String × String) :=
  [("450", "BP Thị Trường"),
   ("451", "BP Cung Ứng"),
   ("452", "BP Nhân Sự Hành Chính"),
   ("453", "BP Tài Chính Kế Toán"),
   ("542", "Khối hiện trường (các vùng miền)"),
   ("651", "Ban Giám Đốc"),
   ("652", "BP R&D, Business Line mới")]

/-- server.py TEAM_ID_MAPPING. -/
def TEAM_ID_MAPPING : List (String × String) :=
  [("307", "Đội Bán hàng - Chăm sóc khách hàng"),
   ("547", "Đội Nguồn Nhân Lực"),
   ("548", "Đội Kế toán - Quản trị"),
   ("1032", "Team Hoàn Thuế VAT (Nhóm)"),
   ("1128", "Đội Thanh Hóa (Miền Bắc)"),
   ("1129", "Đội Quy Nhơn"),
   ("1133", "Đội Hành chính - Số hóa"),
   ("1134", "Team Thực tập sinh - Thử nghiệm mới (Nhóm)"),
   ("1138", "Đội Marketing - AI"),
   ("1141", "Đội Tài chính - Đầu tư"),
   ("1148", "Đội Logistic quốc tế - Thị trường"),
   ("546", "Đội Mua hàng - Out source"),
   ("1130", "Đội Daknong"),
   ("1131", "Đội KCS VT-SG"),
   ("1135", "Đội Chuỗi cung ứng nội địa - Thủ tục XNK"),
   ("1132", "Đội Văn hóa - Chuyển hóa"),
   ("1136", "Đội Chất lượng - Sản phẩm"),
   ("1137", "Team 1 (Nhóm 1)"),
   ("1139", "Đội Data - Hệ thống - Số hóa"),
   ("1375", "AGILE _ DỰ ÁN 1")]

structure TargetRow where
  target_id : String
  target_company_id : String
  target_company_name : String
  target_name : String
  target_scope : String
  team_id : String
  dept_id : String
  list_goal_id : List String
deriving Repr, DecidableEq

structure GoalRow where
  id : String
  name : String
  target_id : String
  team_id : String
  dept_id : String
deriving Repr, DecidableEq

structure KrRow where
  id : String
  goal_id : String
  user_id : String
  name : String
  current_value : ℚ
  goal : ℚ
  unit : String
deriving Repr, DecidableEq

structure KrNode where
  name : String
  value : ℚ
  top_value : ℚ
  unit : String
  owner : String
deriving Repr, DecidableEq

structure GoalNode where
  name : String
  krs : List (String × KrNode)
deriving Repr, DecidableEq

structure TargetNode where
  name : String
  mapped_name : String
  goals : List (String × GoalNode)
deriving Repr, DecidableEq

inductive TreeNode where
  | company (name : String)
      (target_dept_or_team : List (String × List (String × TargetNode)))
  | personal (name : String)
      (groups : List (String × List (String × GoalNode)))
deriving Repr, DecidableEq

/-- `tid and tid != "0"`: the validity test applied to a goal's
target_id when the goals_by_target map is built. -/
def validTargetId (t : String) : Bool :=
  t ≠ "" && t ≠ "0"

/-- `goals_by_target.get(tid, [])`: the goals whose (valid) target_id
equals `tid`, in input order. -/
def alignedGoals (goals : List GoalRow) (tid : String) : List GoalRow :=
  goals.filter (fun g => validTargetId g.target_id && g.target_id = tid)

/-- The goals routed to the personal branch: absent or "0" target_id. -/
def personalGoals (goals : List GoalRow) : List GoalRow :=
  goals.filter (fun g => !(validTargetId g.target_id))

/-- `krs_by_goal.get(gid, [])` (only nonempty goal ids are keyed). -/
def krsForGoal (krs : List KrRow) (gid : String) : List KrRow :=
  if gid = "" then [] else krs.filter (fun k => k.goal_id = gid)

def mkKrNode (umap : List (String × String)) (k : KrRow) : KrNode :=
  { name := k.name
    value := k.current_value
    top_value := k.goal
    unit := k.unit
    owner := (dictGet umap k.user_id).getD "Unknown" }

def mkKrsDict (umap : List (String × String)) (ks : List KrRow) : List (String × KrNode) :=
  ks.foldl (fun d k => dictInsert k.id (mkKrNode umap k) d) []

def mkGoalNode (umap : List (String × String)) (krs : List KrRow) (g : GoalRow) : GoalNode :=
  { name := g.name, krs := mkKrsDict umap (krsForGoal krs g.id) }

def goalsDictStep (umap : List (String × String)) (krs : List KrRow)
    (d : List (String × GoalNode)) (g : GoalRow) : List (String × GoalNode) :=
  dictInsert g.id (mkGoalNode umap krs g) d

def mkGoalsDict (umap : List (String × String)) (krs : List KrRow)
    (aligned : List GoalRow) : List (String × GoalNode) :=
  aligned.foldl (goalsDictStep umap krs) []

/-- The `mapped_context_name` resolution for a dept/team target row. -/
def mappedContextName (row : TargetRow) : String :=
  if row.target_scope = "dept" ∧ row.dept_id ≠ "" then
    (dictGet DEPT_ID_MAPPING row.dept_id).getD ""
  else if row.target_scope = "team" ∧ row.team_id ≠ "" then
    (dictGet TEAM_ID_MAPPING row.team_id).getD ""
  else ""

/-- `dept_team_targets[dt_scope][dt_name] = node` with the
missing-scope-key initialisation. -/
def addToScope (dtt : List (String × List (String × TargetNode)))
    (scope nm : String) (node : TargetNode) :
    List (String × List (String × TargetNode)) :=
  dictInsert scope (dictInsert nm node ((dictGet dtt scope).getD [])) dtt

/-- One iteration of the dept/team loop: resolve the aligned goals of the
row's target id and add the node only when at least one goal resolved
("Add to tree IF it has goals"). -/
def processTargetRow (goals : List GoalRow) (krs : List KrRow)
    (umap : List (String × String))
    (dtt : List (String × List (String × TargetNode))) (row : TargetRow) :
    List (String × List (String × TargetNode)) :=
  let goalsDict := mkGoalsDict umap krs (alignedGoals goals row.target_id)
  if goalsDict = [] then dtt
  else addToScope dtt row.target_scope row.target_name
    ⟨row.target_name, mappedContextName row, goalsDict⟩

def mkDeptTeam (goals : List GoalRow) (krs : List KrRow)
    (umap : List (String × String)) (group : List TargetRow) :
    List (String × List (String × TargetNode)) :=
  group.foldl (processTargetRow goals krs umap) []

/-- Lexicographic order on (company id, company name) pairs; pandas
groupby sorts its group keys ascending. -/
def companyKeyLe (a b : String × String) : Bool :=
  decide (a.1 < b.1) || (decide (a.1 = b.1) && decide (a.2 ≤ b.2))

/-- Insertion step of a stable insertion sort under companyKeyLe. -/
def insertSorted (a : String × String) :
    List (String × String) → List (String × String)
  | [] => [a]
  | b :: l => if companyKeyLe a b then a :: b :: l else b :: insertSorted a l

def sortPairs (l : List (String × String)) : List (String × String) :=
  l.foldr insertSorted []

/-- The keys of `targets_df.groupby(['target_company_id',
'target_company_name'])`: distinct pairs, sorted ascending (the key list
is duplicate-free, so insertion sort yields the unique sorted
arrangement pandas produces). -/
def companyKeys (targets : List TargetRow) : List (String × String) :=
  sortPairs (uniqueFirst (targets.map (fun t => (t.target_company_id, t.target_company_name))))

/-- The company loop: per key, the rows of that company, its dept/team
map, and the node insertion guarded by "Only add Company Node if it has
active children". -/
def companyStep (targets : List TargetRow) (goals : List GoalRow) (krs : List KrRow)
    (umap : List (String × String)) (tree : List (String × TreeNode))
    (key : String × String) : List (String × TreeNode) :=
  let coName := if key.2 = "" then "Unknown Company Target" else key.2
  let group := targets.filter (fun t =>
    decide (t.target_company_id = key.1) && decide (t.target_company_name = key.2))
  let dtt := mkDeptTeam goals krs umap group
  if dtt = [] then tree
  else dictInsert coName (TreeNode.company coName dtt) tree

def buildCompanyTree (targets : List TargetRow) (goals : List GoalRow)
    (krs : List KrRow) (umap : List (String × String)) : List (String × TreeNode) :=
  (companyKeys targets).foldl (companyStep targets goals krs umap) []

/-- The personal grouping key: team mapping first, then dept mapping,
else "Unknown Group". -/
def personalGroupName (g : GoalRow) : String :=
  if g.team_id ≠ "" ∧ g.team_id ≠ "0" then
    (dictGet TEAM_ID_MAPPING g.team_id).getD ("Team " ++ g.team_id)
  else if g.dept_id ≠ "" ∧ g.dept_id ≠ "0" then
    (dictGet DEPT_ID_MAPPING g.dept_id).getD ("Dept " ++ g.dept_id)
  else "Unknown Group"

def personalStep (krs : List KrRow) (umap : List (String × String))
    (pg : List (String × List (String × GoalNode))) (g : GoalRow) :
    List (String × List (String × GoalNode)) :=
  dictInsert (personalGroupName g)
    (dictInsert g.id (mkGoalNode umap krs g) ((dictGet pg (personalGroupName g)).getD []))
    pg

def personalGroupsOf (goals : List GoalRow) (krs : List KrRow)
    (umap : List (String × String)) : List (String × List (String × GoalNode)) :=
  (personalGoals goals).foldl (personalStep krs umap) []

/-- server.py _get_tree_logic, steps 3-5: the company branches plus the
distinguished PERSONAL branch. -/
def buildTree (targets : List TargetRow) (goals : List GoalRow) (krs : List KrRow)
    (umap : List (String × String)) : List (String × TreeNode) :=
  let base := buildCompanyTree targets goals krs umap
  if personalGoals goals = [] then base
  else
    let pg := personalGroupsOf goals krs umap
    if pg = [] then base
    else dictInsert "PERSONAL" (TreeNode.personal "Mục tiêu cá nhân" pg) base

end OKR

namespace OKR

/-! ## Theorems: shift reconciliation (claims C1, C2, C3) -/

/-- Claim C1: for every user and period, when the raw reference value `r`
is strictly greater than the current value `c`, the reconciler sets the
adjusted reference value to `c - s` (with `s` the independently computed
shift), sets the `reference_adjusted` flag, and leaves the shift
unadjusted, so that current value minus adjusted reference equals `s`
exactly.  (For the monthly period the rules 1-3 region is the one where
the quarter-start week-4/5 special case of claim C3 does not fire.) -/
theorem reconcile_reference_adjustment (c r s : ℚ) (y m d : Nat)
    (hr : r > c) (hm : isWeek45OfQuarterStartMonth y m d = false) :
    (calculateWeeklyShiftData c r s).reference_value = c - s ∧
    (calculateWeeklyShiftData c r s).reference_adjustment_applied = true ∧
    (calculateWeeklyShiftData c r s).okr_shift = s ∧
    (calculateWeeklyShiftData c r s).adjustment_applied = false ∧
    c - (calculateWeeklyShiftData c r s).reference_value = s ∧
    (calculateMonthlyShiftData y m d c r s).reference_value = c - s ∧
    (calculateMonthlyShiftData y m d c r s).reference_adjustment_applied = true ∧
    (calculateMonthlyShiftData y m d c r s).okr_shift = s ∧
    (calculateMonthlyShiftData y m d c r s).adjustment_applied = false ∧
    c - (calculateMonthlyShiftData y m d c r s).reference_value = s := by
  simp only [calculateWeeklyShiftData, calculateMonthlyShiftData, hm, if_pos hr,
    Bool.false_eq_true, if_false]
  refine ⟨trivial, trivial, trivial, trivial, by ring, trivial, trivial, trivial, trivial,
    by ring⟩

/-- Witness for claim C1 at the concrete input c = 1, r = 2, s = 5 and the
date 2025-02-10 (February is not a quarter-start month). -/
theorem reconcile_reference_adjustment_witness :
    (2 : ℚ) > 1 ∧ isWeek45OfQuarterStartMonth 2025 2 10 = false ∧
    (1 : ℚ) - (calculateWeeklyShiftData 1 2 5).reference_value = 5 ∧
    (1 : ℚ) - (calculateMonthlyShiftData 2025 2 10 1 2 5).reference_value = 5 := by
  have h := reconcile_reference_adjustment 1 2 5 2025 2 10 (by norm_num) (by decide)
  exact ⟨by norm_num, by decide, h.2.2.2.2.1, h.2.2.2.2.2.2.2.2.2⟩

end OKR

namespace OKR

/-- Claim C2: for every user and period (in the rules 1-3 region, i.e.
when the monthly quarter-start week-4/5 special case of claim C3 does not
fire), when the raw reference `r` is strictly below the current value `c`
and the direct delta `c - r` differs from the independently computed
shift `s`, the reconciler sets the adjusted shift to `c - r` and sets the
`shift_adjusted` flag; in every remaining case (`r = c`, or `r < c` with
`c - r = s`) no adjustment is applied and the adjusted shift and adjusted
reference equal the raw values. -/
theorem reconcile_shift_adjustment (c r s : ℚ) (y m d : Nat)
    (hm : isWeek45OfQuarterStartMonth y m d = false) :
    (r < c → c - r ≠ s →
      (calculateWeeklyShiftData c r s).okr_shift = c - r ∧
      (calculateWeeklyShiftData c r s).adjustment_applied = true ∧
      (calculateWeeklyShiftData c r s).reference_value = r ∧
      (calculateWeeklyShiftData c r s).reference_adjustment_applied = false ∧
      (calculateMonthlyShiftData y m d c r s).okr_shift = c - r ∧
      (calculateMonthlyShiftData y m d c r s).adjustment_applied = true ∧
      (calculateMonthlyShiftData y m d c r s).reference_value = r ∧
      (calculateMonthlyShiftData y m d c r s).reference_adjustment_applied = false) ∧
    (r = c ∨ (r < c ∧ c - r = s) →
      (calculateWeeklyShiftData c r s).okr_shift = s ∧
      (calculateWeeklyShiftData c r s).reference_value = r ∧
      (calculateWeeklyShiftData c r s).adjustment_applied = false ∧
      (calculateWeeklyShiftData c r s).reference_adjustment_applied = false ∧
      (calculateMonthlyShiftData y m d c r s).okr_shift = s ∧
      (calculateMonthlyShiftData y m d c r s).reference_value = r ∧
      (calculateMonthlyShiftData y m d c r s).adjustment_applied = false ∧
      (calculateMonthlyShiftData y m d c r s).reference_adjustment_applied = false) := by
  constructor
  · intro h1 h2
    have hng : ¬ r > c := lt_asymm h1
    simp only [calculateWeeklyShiftData, calculateMonthlyShiftData, hm, Bool.false_eq_true,
      if_false, if_neg hng, if_pos (And.intro h1 h2)]
    exact ⟨trivial, trivial, trivial, trivial, trivial, trivial, trivial, trivial⟩
  · rintro (he | ⟨h1, h2⟩)
    · have hng : ¬ r > c := by rw [he]; exact lt_irrefl c
      have hc2 : ¬ (r < c ∧ c - r ≠ s) := by rw [he]; rintro ⟨hlt, _⟩; exact lt_irrefl c hlt
      simp only [calculateWeeklyShiftData, calculateMonthlyShiftData, hm, Bool.false_eq_true,
        if_false, if_neg hng, if_neg hc2]
      exact ⟨trivial, trivial, trivial, trivial, trivial, trivial, trivial, trivial⟩
    · have hng : ¬ r > c := lt_asymm h1
      have hc2 : ¬ (r < c ∧ c - r ≠ s) := by rintro ⟨_, hne⟩; exact hne h2
      simp only [calculateWeeklyShiftData, calculateMonthlyShiftData, hm, Bool.false_eq_true,
        if_false, if_neg hng, if_neg hc2]
      exact ⟨trivial, trivial, trivial, trivial, trivial, trivial, trivial, trivial⟩

/-- Witness for claim C2: at c = 10, r = 3, s = 1 the direct delta 7 wins
and the shift flag fires; at c = 10, r = 3, s = 7 the two estimates agree
and no adjustment is applied (date 2025-02-10, outside the special case). -/
theorem reconcile_shift_adjustment_witness :
    ((3 : ℚ) < 10 ∧ (10 : ℚ) - 3 ≠ 1 ∧ isWeek45OfQuarterStartMonth 2025 2 10 = false) ∧
    (calculateWeeklyShiftData 10 3 1).okr_shift = 10 - 3 ∧
    (calculateWeeklyShiftData 10 3 1).adjustment_applied = true ∧
    (calculateMonthlyShiftData 2025 2 10 10 3 1).okr_shift = 10 - 3 ∧
    (calculateWeeklyShiftData 10 3 7).okr_shift = 7 ∧
    (calculateWeeklyShiftData 10 3 7).adjustment_applied = false ∧
    (calculateMonthlyShiftData 2025 2 10 10 3 7).reference_value = 3 := by
  have h := reconcile_shift_adjustment 10 3 1 2025 2 10 (by decide)
  have h2 := reconcile_shift_adjustment 10 3 7 2025 2 10 (by decide)
  have ha := h.1 (by norm_num) (by norm_num)
  have hb := h2.2 (Or.inr ⟨by norm_num, by norm_num⟩)
  exact ⟨⟨by norm_num, by norm_num, by decide⟩, ha.1, ha.2.1, ha.2.2.2.2.1,
    hb.1, hb.2.2.1, hb.2.2.2.2.2.1⟩

/-- Claim C3: for the monthly period only, when the current date lies in
week 4 or 5 of a quarter-start month (months 1, 4, 7, 10), the reconciler
bypasses rules 1-3 entirely and outputs adjusted shift = current value
and adjusted reference = 0, with both adjustment flags set.  (The last
two conjuncts check that the guard indeed only fires in months 1/4/7/10
and in week 4 or 5; the weekly reconciler has no such case — it does not
even consult the date.) -/
theorem reconcile_quarter_start_reset (y m d : Nat) (c r s : ℚ)
    (h45 : isWeek45OfQuarterStartMonth y m d = true) :
    (calculateMonthlyShiftData y m d c r s).okr_shift = c ∧
    (calculateMonthlyShiftData y m d c r s).reference_value = 0 ∧
    (calculateMonthlyShiftData y m d c r s).adjustment_applied = true ∧
    (calculateMonthlyShiftData y m d c r s).reference_adjustment_applied = true ∧
    (m = 1 ∨ m = 4 ∨ m = 7 ∨ m = 10) ∧
    (currentWeekNumber y m d = some 4 ∨ currentWeekNumber y m d = some 5) := by
  have hmem : m ∈ QUARTER_START_MONTHS := by
    by_contra hno
    rw [isWeek45OfQuarterStartMonth, if_pos hno] at h45
    exact Bool.false_ne_true h45
  have hwk : currentWeekNumber y m d = some 4 ∨ currentWeekNumber y m d = some 5 := by
    rw [isWeek45OfQuarterStartMonth, if_neg (not_not_intro hmem)] at h45
    cases hcw : currentWeekNumber y m d with
    | none => rw [hcw] at h45; exact absurd h45 Bool.false_ne_true
    | some n =>
      rw [hcw] at h45
      rcases Bool.or_eq_true_iff.mp h45 with h | h
      · exact Or.inl (by rw [decide_eq_true_eq.mp h])
      · exact Or.inr (by rw [decide_eq_true_eq.mp h])
  refine ⟨?_, ?_, ?_, ?_, ?_, hwk⟩
  · simp only [calculateMonthlyShiftData, h45, if_true]
  · simp only [calculateMonthlyShiftData, h45, if_true]
  · simp only [calculateMonthlyShiftData, h45, if_true]
  · simp only [calculateMonthlyShiftData, h45, if_true]
  · simpa [QUARTER_START_MONTHS] using hmem

/-- Witness for claim C3: 2025-01-24 falls in week 4 of January (a
quarter-start month), and the monthly reconciler with c = 7, r = 3, s = 2
outputs shift 7 and reference 0. -/
theorem reconcile_quarter_start_reset_witness :
    isWeek45OfQuarterStartMonth 2025 1 24 = true ∧
    (calculateMonthlyShiftData 2025 1 24 7 3 2).okr_shift = 7 ∧
    (calculateMonthlyShiftData 2025 1 24 7 3 2).reference_value = 0 := by
  have h := reconcile_quarter_start_reset 2025 1 24 7 3 2 (by decide)
  exact ⟨by decide, h.1, h.2.1⟩

end OKR

namespace OKR

/-! ## Theorems: ledger defaults and time windows (claims C6, C7) -/

theorem mem_uniqueFirstAux {α : Type} [DecidableEq α] (x : α) : ∀ (l seen : List α),
    x ∈ uniqueFirstAux seen l ↔ x ∈ l ∧ x ∉ seen
  | [], seen => by simp [uniqueFirstAux]
  | a :: l, seen => by
    by_cases ha : a ∈ seen
    · rw [uniqueFirstAux, if_pos ha, mem_uniqueFirstAux x l seen]
      constructor
      · rintro ⟨hl, hs⟩
        exact ⟨List.mem_cons_of_mem _ hl, hs⟩
      · rintro ⟨hl, hs⟩
        rcases List.mem_cons.mp hl with rfl | hl
        · exact absurd ha hs
        · exact ⟨hl, hs⟩
    · rw [uniqueFirstAux, if_neg ha]
      constructor
      · intro hm
        rcases List.mem_cons.mp hm with rfl | hm
        · exact ⟨List.mem_cons_self _ _, ha⟩
        · have h2 := (mem_uniqueFirstAux x l (a :: seen)).mp hm
          exact ⟨List.mem_cons_of_mem _ h2.1, fun hs => h2.2 (List.mem_cons_of_mem _ hs)⟩
      · rintro ⟨hl, hs⟩
        rcases List.mem_cons.mp hl with rfl | hl
        · exact List.mem_cons_self _ _
        · by_cases hxa : x = a
          · subst hxa
            exact List.mem_cons_self _ _
          · refine List.mem_cons_of_mem _ ((mem_uniqueFirstAux x l (a :: seen)).mpr ⟨hl, ?_⟩)
            intro hm
            rcases List.mem_cons.mp hm with h | h
            · exact hxa h
            · exact hs h

theorem mem_uniqueFirst {α : Type} [DecidableEq α] (x : α) (l : List α) :
    x ∈ uniqueFirst l ↔ x ∈ l := by
  simp [uniqueFirst, mem_uniqueFirstAux]

theorem mem_uniqueKrs_ne_empty {kr : String} {rows : List Row}
    (h : kr ∈ uniqueKrs rows) : kr ≠ "" := by
  rw [uniqueKrs, mem_uniqueFirst] at h
  rcases List.mem_map.mp h with ⟨r, hr, rfl⟩
  have hmem := List.of_mem_filter hr
  simpa using hmem

/-- Claim C6: for every key result with no named checkpoint at or before
the reference instant, the latest-value-at-or-before query returns 0
rather than skipping the key result: its kr_details entry carries value
0, that 0 is among the values averaged into its goal's group of the
goal-level reference value, and the per-KR shift becomes current − 0 =
current (for any quarter-start bound, since the shift window is contained
in the at-or-before window). -/
theorem no_history_means_zero_baseline (rows : List Row) (ref qstart : Int)
    (kr : String) (c : ℚ)
    (hkr : kr ∈ uniqueKrs rows)
    (hnone : actualCheckinsBefore ref (rows.filter (fun r => r.kr_id = kr)) = []) :
    krRefValueFromData ref (rows.filter (fun r => r.kr_id = kr)) = 0 ∧
    (krDetailFor ref rows kr) ∈ (calculate_reference_value ref rows).2 ∧
    (krDetailFor ref rows kr).kr_value = 0 ∧
    (∃ vals, ((krDetailFor ref rows kr).goal_name, vals) ∈
        goalGroups (calculate_reference_value ref rows).2 ∧ (0 : ℚ) ∈ vals) ∧
    calculate_kr_shift kr c qstart ref rows = c := by
  have hzero : krRefValueFromData ref (rows.filter (fun r => r.kr_id = kr)) = 0 := by
    rw [krRefValueFromData, hnone]
  have hdet : (krDetailFor ref rows kr) ∈ (calculate_reference_value ref rows).2 :=
    List.mem_map.mpr ⟨kr, hkr, rfl⟩
  have hval : (krDetailFor ref rows kr).kr_value = 0 := hzero
  refine ⟨hzero, hdet, hval, ?_, ?_⟩
  · refine ⟨((calculate_reference_value ref rows).2.filter
      (fun kd => kd.goal_name = (krDetailFor ref rows kr).goal_name)).map
        (fun kd => kd.kr_value), ?_, ?_⟩
    · refine List.mem_map.mpr ⟨(krDetailFor ref rows kr).goal_name, ?_, rfl⟩
      rw [mem_uniqueFirst]
      exact List.mem_map.mpr ⟨_, hdet, rfl⟩
    · rw [← hval]
      exact List.mem_map.mpr ⟨_, List.mem_filter.mpr ⟨hdet, by simp⟩, rfl⟩
  · rw [calculate_kr_shift, if_neg (mem_uniqueKrs_ne_empty hkr)]
    by_cases hh : rows.filter (fun r => r.kr_id = kr) = []
    · rw [if_pos hh]
    · rw [if_neg hh]
      have hvalid : (rows.filter (fun r => r.kr_id = kr)).filter
          (fun r => windowOk qstart ref r && named r) = [] := by
        rw [actualCheckinsBefore] at hnone
        rw [List.filter_eq_nil_iff] at hnone ⊢
        intro r hr hwr
        refine hnone r hr ?_
        simp only [Bool.and_eq_true] at hwr
        obtain ⟨hw, hn⟩ := hwr
        rw [windowOk] at hw
        rw [sinceLe, named] at *
        cases hs : r.checkin_since with
        | none => rw [hs] at hw; exact absurd hw Bool.false_ne_true
        | some t =>
          rw [hs] at hw
          simp only [Bool.and_eq_true] at hw
          obtain ⟨_, hle⟩ := hw
          simpa [hs, hle] using hn
      rw [hvalid]
      exact sub_zero c

/-- Witness for claim C6: a single row for KR "K1" whose only checkin is
at time 100, queried at reference instant 50 — the reference value
defaults to 0 and the KR shift equals the current value 5. -/
theorem no_history_means_zero_baseline_witness :
    ("K1" ∈ uniqueKrs [⟨"K1", "G", 50, some 100, "c", 30⟩] ∧
      actualCheckinsBefore 50
        (([⟨"K1", "G", 50, some 100, "c", 30⟩] : List Row).filter
          (fun r => r.kr_id = "K1")) = []) ∧
    krRefValueFromData 50
      (([⟨"K1", "G", 50, some 100, "c", 30⟩] : List Row).filter
        (fun r => r.kr_id = "K1")) = 0 ∧
    calculate_kr_shift "K1" 5 0 50 [⟨"K1", "G", 50, some 100, "c", 30⟩] = 5 := by
  have h := no_history_means_zero_baseline [⟨"K1", "G", 50, some 100, "c", 30⟩] 50 0 "K1" 5
    (by decide) (by decide)
  exact ⟨⟨by decide, by decide⟩, h.1, h.2.2.2.2⟩


theorem calc_kr_shift_eq_sub (krId : String) (c : ℚ) (qstart ref : Int) (rows : List Row)
    (hk : krId ≠ "") :
    calculate_kr_shift krId c qstart ref rows =
      c - krShiftRefVal (rows.filter
        (fun r => decide (r.kr_id = krId) && (windowOk qstart ref r && named r))) := by
  rw [calculate_kr_shift, if_neg hk]
  by_cases hh : rows.filter (fun r => r.kr_id = krId) = []
  · rw [if_pos hh]
    have hnil : rows.filter
        (fun r => decide (r.kr_id = krId) && (windowOk qstart ref r && named r)) = [] := by
      rw [List.filter_eq_nil_iff] at hh ⊢
      intro r hr hb
      simp only [Bool.and_eq_true] at hb
      exact hh r hr hb.1
    rw [hnil, krShiftRefVal, sub_zero]
  · rw [if_neg hh]
    have hcomb : (rows.filter (fun r => r.kr_id = krId)).filter
        (fun r => windowOk qstart ref r && named r) =
        rows.filter (fun r => decide (r.kr_id = krId) && (windowOk qstart ref r && named r)) := by
      rw [List.filter_filter]
      refine List.filter_congr ?_
      intro r _
      cases hw : windowOk qstart ref r <;> cases hp : decide (r.kr_id = krId) <;>
        cases hn : named r <;> simp [hw, hp, hn]
    rw [hcomb]
    cases rows.filter
        (fun r => decide (r.kr_id = krId) && (windowOk qstart ref r && named r)) with
    | nil => rw [krShiftRefVal, sub_zero]
    | cons r rs => rw [krShiftRefVal]

/-- Claim C7, corrected (amended claim): the per-KR shift computation
considers only checkpoints inside [quarter_start, reference_instant] —
its result is unchanged when all rows outside that window are removed —
while the goal-level reference-value computation is bounded above by the
reference instant only: its per-KR value selection is unchanged when rows
after the reference instant are removed, but checkpoints earlier than the
quarter start can influence it (see the counterexample theorem). -/
theorem shift_quarter_bounded_reference_unbounded (krId : String) (c : ℚ)
    (qstart ref : Int) (rows krData : List Row) :
    calculate_kr_shift krId c qstart ref rows =
      calculate_kr_shift krId c qstart ref
        (rows.filter (fun r => windowOk qstart ref r)) ∧
    krRefValueFromData ref krData =
      krRefValueFromData ref (krData.filter (fun r => sinceLe r ref)) := by
  constructor
  · by_cases hk : krId = ""
    · rw [calculate_kr_shift, calculate_kr_shift, if_pos hk, if_pos hk]
    · rw [calc_kr_shift_eq_sub krId c qstart ref rows hk,
        calc_kr_shift_eq_sub krId c qstart ref _ hk]
      refine congrArg (fun l => c - krShiftRefVal l) ?_
      rw [List.filter_filter]
      refine List.filter_congr ?_
      intro r _
      cases hw : windowOk qstart ref r <;> cases hp : decide (r.kr_id = krId) <;>
        cases hn : named r <;> simp [hw, hp, hn]
  · rw [krRefValueFromData, krRefValueFromData, actualCheckinsBefore, actualCheckinsBefore]
    have hlist : krData.filter (fun r => sinceLe r ref && named r) =
        (krData.filter (fun r => sinceLe r ref)).filter
          (fun r => sinceLe r ref && named r) := by
      rw [List.filter_filter]
      refine List.filter_congr ?_
      intro r _
      cases hs : sinceLe r ref <;> cases hn : named r <;> simp [hs, hn]
    rw [← hlist]

/-- Counterexample to claim C7 as stated: with quarter start at instant 10
and reference instant 20, a single checkpoint at instant 5 — strictly
before the quarter start — determines the goal-level reference value
(40); removing it changes the result to 0.  So a checkpoint earlier than
the quarter start does influence a computed reference value:
calculate_reference_value applies no lower time bound. -/
theorem reference_value_uses_pre_quarter_checkpoint :
    (calculate_reference_value 20 [⟨"K1", "G", 50, some 5, "c", 40⟩]).1 = 40 ∧
    (calculate_reference_value 20 []).1 = 0 ∧ ((5 : Int) < 10 ∧ (10 : Int) ≤ 20) := by
  refine ⟨?_, ?_, by decide⟩
  · simp [calculate_reference_value, uniqueKrs, uniqueFirst, uniqueFirstAux, krDetailFor,
      krGoalName, krRefValueFromData, actualCheckinsBefore, sinceLe, named, latestCheckin,
      goalGroups, mean]
  · simp [calculate_reference_value, uniqueKrs, uniqueFirst, uniqueFirstAux, goalGroups, mean]

end OKR

namespace OKR

/-- Claim C8: the movement bonus added to a user's score is an ascending,
first-match threshold lookup on the monthly shift (<10 → 0.15, <25 →
0.25, <30 → 0.5, <50 → 0.75, <80 → 1.25, <99 → 1.5, else 2.5); in
particular a shift of 24.9 yields 0.25 and a shift of 25.0 yields 0.5,
and the score adds exactly this bonus. -/
theorem movement_bonus_first_match_ascending (m : ℚ) (u : ScoreUser) :
    movementBonus m =
      (if m < 10 then 0.15 else if m < 25 then 0.25 else if m < 30 then 0.5
        else if m < 50 then 0.75 else if m < 80 then 1.25 else if m < 99 then 1.5
        else 2.5) ∧
    movementBonus (24.9 : ℚ) = 0.25 ∧ movementBonus 25 = 0.5 ∧
    calculate_score u = round2 (0.5 + (if u.checkin = 1 then 0.5 else 0) +
      (if u.co_OKR = 1 then 1 else 0) + movementBonus u.dich_chuyen_OKR) := by
  refine ⟨?_, ?_, ?_, rfl⟩
  · rw [movementBonus, movement_scores]
    by_cases h1 : m < 10
    · rw [List.find?_cons_of_pos _ (by simpa using h1), if_pos h1]
    · rw [List.find?_cons_of_neg _ (by simpa using h1), if_neg h1]
      by_cases h2 : m < 25
      · rw [List.find?_cons_of_pos _ (by simpa using h2), if_pos h2]
      · rw [List.find?_cons_of_neg _ (by simpa using h2), if_neg h2]
        by_cases h3 : m < 30
        · rw [List.find?_cons_of_pos _ (by simpa using h3), if_pos h3]
        · rw [List.find?_cons_of_neg _ (by simpa using h3), if_neg h3]
          by_cases h4 : m < 50
          · rw [List.find?_cons_of_pos _ (by simpa using h4), if_pos h4]
          · rw [List.find?_cons_of_neg _ (by simpa using h4), if_neg h4]
            by_cases h5 : m < 80
            · rw [List.find?_cons_of_pos _ (by simpa using h5), if_pos h5]
            · rw [List.find?_cons_of_neg _ (by simpa using h5), if_neg h5]
              by_cases h6 : m < 99
              · rw [List.find?_cons_of_pos _ (by simpa using h6), if_pos h6]
              · rw [List.find?_cons_of_neg _ (by simpa using h6), if_neg h6]
                rfl
  · rw [movementBonus, movement_scores]
    rw [List.find?_cons_of_neg _ (by norm_num), List.find?_cons_of_pos _ (by norm_num)]
  · rw [movementBonus, movement_scores]
    rw [List.find?_cons_of_neg _ (by norm_num), List.find?_cons_of_neg _ (by norm_num),
      List.find?_cons_of_pos _ (by norm_num)]

/-- Claim C9: the risk score is the sum of four independently triggered
penalties (negative shift +30, fewer than 2 period checkins +25, average
weekly checkin rate below 1 +20, zero active key results +25); the level
is Cao (High) at ≥ 60, Trung bình (Medium) at ≥ 30, Thấp (Low) below;
and the scenario shift −5, 1 checkin, rate 1/2, 2 active KRs scores
30 + 25 + 20 = 75, level Cao. -/
theorem risk_score_and_level (i : RiskInput) :
    (assess_user_risk i).risk_score =
      (if i.okr_shift < 0 then 30 else 0) + (if i.checkin_count_period < 2 then 25 else 0) +
      (if i.checkin_frequency_per_week < 1 then 20 else 0) +
      (if i.kr_details_count = 0 then 25 else 0) ∧
    (assess_user_risk i).risk_level =
      (if 60 ≤ (assess_user_risk i).risk_score then "Cao"
       else if 30 ≤ (assess_user_risk i).risk_score then "Trung bình" else "Thấp") ∧
    assess_user_risk ⟨-5, 1, 1/2, 2⟩ =
      ⟨75, "Cao", ["Tiến độ OKR âm", "Ít check-in trong kỳ", "Tần suất check-in thấp"]⟩ := by
  refine ⟨rfl, rfl, ?_⟩
  norm_num [assess_user_risk]

end OKR

namespace OKR

/-! ## Theorems: alignment tree (claims C4, C5, C10)

Association-list counterparts of the Python dict operations, then the
structural facts the tree claims rest on. -/

theorem dictGet_dictInsert_self {α : Type} (k : String) (v : α) (d : List (String × α)) :
    dictGet (dictInsert k v d) k = some v := by
  induction d with
  | nil => simp [dictInsert, dictGet, List.find?]
  | cons p rest ih =>
    obtain ⟨k2, v2⟩ := p
    rw [dictInsert]
    by_cases h : k2 = k
    · rw [if_pos h]
      simp [dictGet, List.find?]
    · rw [if_neg h]
      rw [dictGet] at ih ⊢
      rw [List.find?, decide_eq_false h]
      exact ih

theorem dictGet_dictInsert_ne {α : Type} (k k2 : String) (v : α) (d : List (String × α))
    (h : k2 ≠ k) : dictGet (dictInsert k v d) k2 = dictGet d k2 := by
  induction d with
  | nil => simp [dictInsert, dictGet, List.find?, Ne.symm h]
  | cons p rest ih =>
    obtain ⟨k3, v3⟩ := p
    rw [dictInsert]
    by_cases h3 : k3 = k
    · rw [if_pos h3]
      subst h3
      simp [dictGet, List.find?, Ne.symm h]
    · rw [if_neg h3]
      rw [dictGet, dictGet] at ih ⊢
      simp only [List.find?]
      cases hd : decide (k3 = k2) with
      | true => rfl
      | false => exact ih

theorem mem_dictInsert {α : Type} {p : String × α} {k : String} {v : α}
    {d : List (String × α)} (h : p ∈ dictInsert k v d) : p = (k, v) ∨ p ∈ d := by
  induction d with
  | nil => simpa [dictInsert] using h
  | cons q rest ih =>
    obtain ⟨k2, v2⟩ := q
    rw [dictInsert] at h
    by_cases h2 : k2 = k
    · rw [if_pos h2] at h
      rcases List.mem_cons.mp h with rfl | hm
      · exact Or.inl rfl
      · exact Or.inr (List.mem_cons_of_mem _ hm)
    · rw [if_neg h2] at h
      rcases List.mem_cons.mp h with rfl | hm
      · exact Or.inr (List.mem_cons_self _ _)
      · rcases ih hm with h4 | h4
        · exact Or.inl h4
        · exact Or.inr (List.mem_cons_of_mem _ h4)

theorem dictInsert_ne_nil {α : Type} (k : String) (v : α) (d : List (String × α)) :
    dictInsert k v d ≠ [] := by
  cases d with
  | nil => simp [dictInsert]
  | cons p rest =>
    obtain ⟨k2, v2⟩ := p
    rw [dictInsert]
    by_cases h : k2 = k
    · rw [if_pos h]; exact List.cons_ne_nil _ _
    · rw [if_neg h]; exact List.cons_ne_nil _ _

theorem dictGet_mem {α : Type} {d : List (String × α)} {k : String} {v : α}
    (h : dictGet d k = some v) : (k, v) ∈ d := by
  rw [dictGet] at h
  rcases Option.map_eq_some'.mp h with ⟨p, hp, hv⟩
  have hk := List.find?_some hp
  have hmem := List.mem_of_find?_eq_some hp
  obtain ⟨k2, v2⟩ := p
  simp only [decide_eq_true_eq] at hk
  cases hk
  cases hv
  exact hmem

theorem processTargetRow_preserves (goals : List GoalRow) (krs : List KrRow)
    (umap : List (String × String)) (row : TargetRow)
    (dtt : List (String × List (String × TargetNode)))
    (hI : ∀ s tm, (s, tm) ∈ dtt → ∀ tn nd, (tn, nd) ∈ tm → nd.goals ≠ []) :
    ∀ s tm, (s, tm) ∈ processTargetRow goals krs umap dtt row →
      ∀ tn nd, (tn, nd) ∈ tm → nd.goals ≠ [] := by
  intro s tm hmem tn nd hmem2
  rw [processTargetRow] at hmem
  by_cases hg : mkGoalsDict umap krs (alignedGoals goals row.target_id) = []
  · rw [if_pos hg] at hmem
    exact hI s tm hmem tn nd hmem2
  · rw [if_neg hg] at hmem
    rw [addToScope] at hmem
    rcases mem_dictInsert hmem with heq | hmem3
    · have htm : tm = dictInsert row.target_name
          ⟨row.target_name, mappedContextName row,
            mkGoalsDict umap krs (alignedGoals goals row.target_id)⟩
          ((dictGet dtt row.target_scope).getD []) := congrArg Prod.snd heq
      rw [htm] at hmem2
      rcases mem_dictInsert hmem2 with heq2 | hmem4
      · have hnd : nd = ⟨row.target_name, mappedContextName row,
            mkGoalsDict umap krs (alignedGoals goals row.target_id)⟩ :=
          congrArg Prod.snd heq2
        rw [hnd]
        exact hg
      · cases hget : dictGet dtt row.target_scope with
        | none =>
          rw [hget] at hmem4
          exact absurd hmem4 (List.not_mem_nil _)
        | some tm0 =>
          rw [hget] at hmem4
          simp only [Option.getD_some] at hmem4
          exact hI row.target_scope tm0 (dictGet_mem hget) tn nd hmem4
    · exact hI s tm hmem3 tn nd hmem2

theorem foldl_processTargetRow_preserves (goals : List GoalRow) (krs : List KrRow)
    (umap : List (String × String)) :
    ∀ (group : List TargetRow) (dtt : List (String × List (String × TargetNode))),
      (∀ s tm, (s, tm) ∈ dtt → ∀ tn nd, (tn, nd) ∈ tm → nd.goals ≠ []) →
      ∀ s tm, (s, tm) ∈ group.foldl (processTargetRow goals krs umap) dtt →
        ∀ tn nd, (tn, nd) ∈ tm → nd.goals ≠ []
  | [], _, hI => hI
  | row :: rest, dtt, hI => by
    rw [List.foldl_cons]
    exact foldl_processTargetRow_preserves goals krs umap rest _
      (processTargetRow_preserves goals krs umap row dtt hI)

theorem mkDeptTeam_goalsNonempty (goals : List GoalRow) (krs : List KrRow)
    (umap : List (String × String)) (group : List TargetRow) :
    ∀ s tm, (s, tm) ∈ mkDeptTeam goals krs umap group →
      ∀ tn nd, (tn, nd) ∈ tm → nd.goals ≠ [] := by
  rw [mkDeptTeam]
  exact foldl_processTargetRow_preserves goals krs umap group []
    (fun s tm hmem => absurd hmem (List.not_mem_nil _))

theorem companyStep_preserves (targets : List TargetRow) (goals : List GoalRow)
    (krs : List KrRow) (umap : List (String × String)) (tree : List (String × TreeNode))
    (key : String × String)
    (hQ : ∀ cn nm dtt, (cn, TreeNode.company nm dtt) ∈ tree → dtt ≠ [] ∧
      ∀ s tm, (s, tm) ∈ dtt → ∀ tn nd, (tn, nd) ∈ tm → nd.goals ≠ []) :
    ∀ cn nm dtt, (cn, TreeNode.company nm dtt) ∈ companyStep targets goals krs umap tree key →
      dtt ≠ [] ∧ ∀ s tm, (s, tm) ∈ dtt → ∀ tn nd, (tn, nd) ∈ tm → nd.goals ≠ [] := by
  intro cn nm dtt hmem
  simp only [companyStep] at hmem
  by_cases hd : mkDeptTeam goals krs umap (targets.filter (fun t =>
      decide (t.target_company_id = key.1) && decide (t.target_company_name = key.2))) = []
  · rw [if_pos hd] at hmem
    exact hQ cn nm dtt hmem
  · rw [if_neg hd] at hmem
    rcases mem_dictInsert hmem with heq | hmem2
    · have hsnd : TreeNode.company nm dtt = TreeNode.company
          (if key.2 = "" then "Unknown Company Target" else key.2)
          (mkDeptTeam goals krs umap (targets.filter (fun t =>
            decide (t.target_company_id = key.1) && decide (t.target_company_name = key.2)))) :=
        congrArg Prod.snd heq
      have hdtt : dtt = mkDeptTeam goals krs umap (targets.filter (fun t =>
          decide (t.target_company_id = key.1) && decide (t.target_company_name = key.2))) :=
        (TreeNode.company.injEq _ _ _ _).mp hsnd |>.2
      rw [hdtt]
      exact ⟨hd, mkDeptTeam_goalsNonempty goals krs umap _⟩
    · exact hQ cn nm dtt hmem2

theorem foldl_companyStep_preserves (targets : List TargetRow) (goals : List GoalRow)
    (krs : List KrRow) (umap : List (String × String)) :
    ∀ (keys : List (String × String)) (tree : List (String × TreeNode)),
      (∀ cn nm dtt, (cn, TreeNode.company nm dtt) ∈ tree → dtt ≠ [] ∧
        ∀ s tm, (s, tm) ∈ dtt → ∀ tn nd, (tn, nd) ∈ tm → nd.goals ≠ []) →
      ∀ cn nm dtt,
        (cn, TreeNode.company nm dtt) ∈ keys.foldl (companyStep targets goals krs umap) tree →
        dtt ≠ [] ∧ ∀ s tm, (s, tm) ∈ dtt → ∀ tn nd, (tn, nd) ∈ tm → nd.goals ≠ []
  | [], _, hQ => hQ
  | key :: rest, tree, hQ => by
    rw [List.foldl_cons]
    exact foldl_companyStep_preserves targets goals krs umap rest _
      (companyStep_preserves targets goals krs umap tree key hQ)

theorem buildTree_company_wf (targets : List TargetRow) (goals : List GoalRow)
    (krs : List KrRow) (umap : List (String × String)) :
    ∀ cn nm dtt, (cn, TreeNode.company nm dtt) ∈ buildTree targets goals krs umap →
      dtt ≠ [] ∧ ∀ s tm, (s, tm) ∈ dtt → ∀ tn nd, (tn, nd) ∈ tm → nd.goals ≠ [] := by
  have hbase : ∀ cn nm dtt,
      (cn, TreeNode.company nm dtt) ∈ buildCompanyTree targets goals krs umap →
      dtt ≠ [] ∧ ∀ s tm, (s, tm) ∈ dtt → ∀ tn nd, (tn, nd) ∈ tm → nd.goals ≠ [] := by
    rw [buildCompanyTree]
    exact foldl_companyStep_preserves targets goals krs umap (companyKeys targets) []
      (fun cn nm dtt hmem => absurd hmem (List.not_mem_nil _))
  intro cn nm dtt hmem
  rw [buildTree] at hmem
  by_cases hp : personalGoals goals = []
  · rw [if_pos hp] at hmem
    exact hbase cn nm dtt hmem
  · rw [if_neg hp] at hmem
    by_cases hpg : personalGroupsOf goals krs umap = []
    · rw [if_pos hpg] at hmem
      exact hbase cn nm dtt hmem
    · rw [if_neg hpg] at hmem
      rcases mem_dictInsert hmem with heq | hmem2
      · exact absurd (congrArg Prod.snd heq) (by simp)
      · exact hbase cn nm dtt hmem2

theorem goalsDict_lookup_pres (umap : List (String × String)) (krs : List KrRow) :
    ∀ (l : List GoalRow) (d : List (String × GoalNode)) (k : String),
      (∃ nm, dictGet d k = some ⟨nm, mkKrsDict umap (krsForGoal krs k)⟩) →
      ∃ nm, dictGet (l.foldl (goalsDictStep umap krs) d) k =
        some ⟨nm, mkKrsDict umap (krsForGoal krs k)⟩
  | [], _, _, h => h
  | g :: gs, d, k, h => by
    rw [List.foldl_cons]
    refine goalsDict_lookup_pres umap krs gs _ k ?_
    rw [goalsDictStep]
    by_cases hk : g.id = k
    · subst hk
      exact ⟨g.name, by rw [dictGet_dictInsert_self]; rfl⟩
    · obtain ⟨nm, hnm⟩ := h
      refine ⟨nm, ?_⟩
      rw [dictGet_dictInsert_ne _ _ _ _ (Ne.symm hk)]
      exact hnm

theorem goalsDict_lookup (umap : List (String × String)) (krs : List KrRow) :
    ∀ (l : List GoalRow) (d : List (String × GoalNode)) (g : GoalRow), g ∈ l →
      ∃ nm, dictGet (l.foldl (goalsDictStep umap krs) d) g.id =
        some ⟨nm, mkKrsDict umap (krsForGoal krs g.id)⟩ := by
  intro l
  induction l with
  | nil => exact fun d g h => absurd h (List.not_mem_nil g)
  | cons a l2 ih =>
    intro d g hmem
    rw [List.foldl_cons]
    rcases List.mem_cons.mp hmem with rfl | h2
    · refine goalsDict_lookup_pres umap krs l2 _ g.id ?_
      rw [goalsDictStep]
      exact ⟨g.name, by rw [dictGet_dictInsert_self]; rfl⟩
    · exact ih _ g h2

/-- Claim C4: in the built tree every surviving node is backed by goals —
an alignment node with zero resolved goals contributes nothing
(processTargetRow is the identity for it) and never appears; a company
entry always carries a nonempty dept/team map whose target nodes all have
nonempty goal maps; while a goal with zero resolved key results is still
entered into its target's goal map, with children mkKrsDict of its
(possibly empty) key-result slice — empty when no key result references
it. -/
theorem tree_pruning_asymmetry (targets : List TargetRow) (goals : List GoalRow)
    (krs : List KrRow) (umap : List (String × String)) :
    (∀ cn nm dtt, (cn, TreeNode.company nm dtt) ∈ buildTree targets goals krs umap →
      dtt ≠ [] ∧ ∀ s tm, (s, tm) ∈ dtt → ∀ tn nd, (tn, nd) ∈ tm → nd.goals ≠ []) ∧
    (∀ (row : TargetRow) dtt, alignedGoals goals row.target_id = [] →
      processTargetRow goals krs umap dtt row = dtt) ∧
    (∀ (tid : String) (g : GoalRow), g ∈ alignedGoals goals tid →
      ∃ nm, dictGet (mkGoalsDict umap krs (alignedGoals goals tid)) g.id =
        some ⟨nm, mkKrsDict umap (krsForGoal krs g.id)⟩) ∧
    (∀ g : GoalRow, krsForGoal krs g.id = [] → (mkGoalNode umap krs g).krs = []) := by
  refine ⟨buildTree_company_wf targets goals krs umap, ?_, ?_, ?_⟩
  · intro row dtt halign
    simp [processTargetRow, halign, mkGoalsDict]
  · intro tid g hmem
    rw [mkGoalsDict]
    exact goalsDict_lookup umap krs (alignedGoals goals tid) [] g hmem
  · intro g h
    rw [mkGoalNode, h]
    rfl

/-- Witness for claim C4: target "10" with one aligned goal "G1" and no
key results — a target id nobody aligns to ("77") is a no-op, the aligned
goal is present with empty kr children, and the surviving dept/team map
is nonempty. -/
theorem tree_pruning_asymmetry_witness :
    (alignedGoals [⟨"G1", "Goal1", "10", "", ""⟩] "77" = [] ∧
      processTargetRow [⟨"G1", "Goal1", "10", "", ""⟩] [] [] []
        ⟨"77", "c1", "Co", "T2", "team", "", "", []⟩ = []) ∧
    ((⟨"G1", "Goal1", "10", "", ""⟩ : GoalRow) ∈
        alignedGoals [⟨"G1", "Goal1", "10", "", ""⟩] "10" ∧
      ∃ nm, dictGet (mkGoalsDict [] [] (alignedGoals [⟨"G1", "Goal1", "10", "", ""⟩] "10"))
        "G1" = some ⟨nm, mkKrsDict [] (krsForGoal [] "G1")⟩) ∧
    (mkGoalNode [] [] ⟨"G1", "Goal1", "10", "", ""⟩).krs = [] ∧
    ([("team", [("Tname", (⟨"Tname", "", [("G1", ⟨"Goal1", []⟩)]⟩ : TargetNode))])] :
      List (String × List (String × TargetNode))) ≠ [] := by
  have h := tree_pruning_asymmetry [⟨"10", "c1", "Co", "Tname", "team", "", "", []⟩]
    [⟨"G1", "Goal1", "10", "", ""⟩] [] []
  refine ⟨⟨by decide, h.2.1 ⟨"77", "c1", "Co", "T2", "team", "", "", []⟩ [] (by decide)⟩,
    ⟨by decide, h.2.2.1 "10" ⟨"G1", "Goal1", "10", "", ""⟩ (by decide)⟩,
    h.2.2.2 ⟨"G1", "Goal1", "10", "", ""⟩ (by decide), ?_⟩
  exact (h.1 "Co" "Co" [("team", [("Tname", ⟨"Tname", "", [("G1", ⟨"Goal1", []⟩)]⟩)])]
    (by decide)).1

theorem foldl_congr_mem {α β : Type} :
    ∀ (l : List α) (f g : β → α → β), (∀ b, ∀ a ∈ l, f b a = g b a) →
      ∀ b, l.foldl f b = l.foldl g b
  | [], _, _, _, _ => rfl
  | a :: l, f, g, h, b => by
    rw [List.foldl_cons, List.foldl_cons, h b a (List.mem_cons_self _ _)]
    exact foldl_congr_mem l f g (fun b2 a2 ha2 => h b2 a2 (List.mem_cons_of_mem _ ha2)) _

theorem mkDeptTeam_congr (goalsA goalsB : List GoalRow) (krs : List KrRow)
    (umap : List (String × String)) (group : List TargetRow)
    (h : ∀ row ∈ group, alignedGoals goalsA row.target_id = alignedGoals goalsB row.target_id) :
    mkDeptTeam goalsA krs umap group = mkDeptTeam goalsB krs umap group := by
  rw [mkDeptTeam, mkDeptTeam]
  refine foldl_congr_mem group _ _ ?_ []
  intro dtt row hrow
  rw [processTargetRow, processTargetRow, h row hrow]

/-- Claim C10: a goal whose target_id is non-empty and not "0" but
matches no row of the parsed target table is silently dropped: the built
tree — alignment branches and personal branch alike — is unchanged when
the goal (and its copies) is removed from the input. -/
theorem unresolved_target_goal_silently_dropped (targets : List TargetRow)
    (goals : List GoalRow) (krs : List KrRow) (umap : List (String × String)) (g : GoalRow)
    (hg : g ∈ goals) (h0 : g.target_id ≠ "") (h1 : g.target_id ≠ "0")
    (hnone : ∀ t ∈ targets, t.target_id ≠ g.target_id) :
    buildTree targets goals krs umap =
      buildTree targets (goals.filter (fun x => x ≠ g)) krs umap := by
  have hvalid : validTargetId g.target_id = true := by
    rw [validTargetId]
    simp [h0, h1]
  have halign : ∀ t ∈ targets, alignedGoals (goals.filter (fun x => x ≠ g)) t.target_id =
      alignedGoals goals t.target_id := by
    intro t ht
    rw [alignedGoals, alignedGoals, List.filter_filter]
    refine List.filter_congr ?_
    intro x hx
    by_cases hp : (validTargetId x.target_id && decide (x.target_id = t.target_id)) = true
    · have hx_ne : x ≠ g := by
        intro heq
        subst heq
        simp only [Bool.and_eq_true, decide_eq_true_eq] at hp
        exact hnone t ht hp.2.symm
      simp [hp, hx_ne]
    · rw [Bool.not_eq_true] at hp
      simp [hp]
  have hpers : personalGoals (goals.filter (fun x => x ≠ g)) = personalGoals goals := by
    rw [personalGoals, personalGoals, List.filter_filter]
    refine List.filter_congr ?_
    intro x hx
    by_cases hp : (!(validTargetId x.target_id)) = true
    · have hx_ne : x ≠ g := by
        intro heq
        subst heq
        rw [hvalid] at hp
        exact absurd hp (by decide)
      simp [hp, hx_ne]
    · rw [Bool.not_eq_true] at hp
      simp [hp]
  have hcompany : buildCompanyTree targets (goals.filter (fun x => x ≠ g)) krs umap =
      buildCompanyTree targets goals krs umap := by
    rw [buildCompanyTree, buildCompanyTree]
    refine foldl_congr_mem (companyKeys targets) _ _ ?_ []
    intro tree key hkey
    have hgrp : ∀ row ∈ targets.filter (fun t =>
        decide (t.target_company_id = key.1) && decide (t.target_company_name = key.2)),
        alignedGoals (goals.filter (fun x => x ≠ g)) row.target_id =
          alignedGoals goals row.target_id :=
      fun row hrow => halign row (List.mem_of_mem_filter hrow)
    simp only [companyStep,
      mkDeptTeam_congr (goals.filter (fun x => x ≠ g)) goals krs umap _ hgrp]
  have hpgroups : personalGroupsOf (goals.filter (fun x => x ≠ g)) krs umap =
      personalGroupsOf goals krs umap := by
    rw [personalGroupsOf, personalGroupsOf, hpers]
  simp only [buildTree, hcompany, hpers, hpgroups]

/-- Witness for claim C10: goal "G1" points at target id "99", the only
target row has id "10" — the tree is unchanged by deleting the goal, and
is in fact empty (the goal is in no branch). -/
theorem unresolved_target_goal_silently_dropped_witness :
    ((⟨"G1", "Goal1", "99", "", ""⟩ : GoalRow) ∈
        ([⟨"G1", "Goal1", "99", "", ""⟩] : List GoalRow) ∧
      (∀ t ∈ ([⟨"10", "c1", "Co", "Tname", "team", "", "", []⟩] : List TargetRow),
        t.target_id ≠ "99")) ∧
    buildTree [⟨"10", "c1", "Co", "Tname", "team", "", "", []⟩]
        [⟨"G1", "Goal1", "99", "", ""⟩] [] [] =
      buildTree [⟨"10", "c1", "Co", "Tname", "team", "", "", []⟩]
        (([⟨"G1", "Goal1", "99", "", ""⟩] : List GoalRow).filter
          (fun x => x ≠ ⟨"G1", "Goal1", "99", "", ""⟩)) [] [] ∧
    buildTree [⟨"10", "c1", "Co", "Tname", "team", "", "", []⟩]
      [⟨"G1", "Goal1", "99", "", ""⟩] [] [] = [] := by
  have h := unresolved_target_goal_silently_dropped
    [⟨"10", "c1", "Co", "Tname", "team", "", "", []⟩]
    [⟨"G1", "Goal1", "99", "", ""⟩] [] [] ⟨"G1", "Goal1", "99", "", ""⟩
    (by decide) (by decide) (by decide) (by decide)
  exact ⟨⟨by decide, by decide⟩, h, by decide⟩

theorem personalGroups_lookup_pres (krs : List KrRow) (umap : List (String × String)) :
    ∀ (l : List GoalRow) (pg : List (String × List (String × GoalNode))) (k gid : String),
      (∃ nm, dictGet ((dictGet pg k).getD []) gid =
        some ⟨nm, mkKrsDict umap (krsForGoal krs gid)⟩) →
      ∃ nm, dictGet ((dictGet (l.foldl (personalStep krs umap) pg) k).getD []) gid =
        some ⟨nm, mkKrsDict umap (krsForGoal krs gid)⟩
  | [], _, _, _, h => h
  | g :: gs, pg, k, gid, h => by
    rw [List.foldl_cons]
    refine personalGroups_lookup_pres krs umap gs _ k gid ?_
    rw [personalStep]
    by_cases hk : personalGroupName g = k
    · subst hk
      rw [dictGet_dictInsert_self]
      simp only [Option.getD_some]
      by_cases hid : g.id = gid
      · subst hid
        exact ⟨g.name, by rw [dictGet_dictInsert_self]; rfl⟩
      · obtain ⟨nm, hnm⟩ := h
        refine ⟨nm, ?_⟩
        rw [dictGet_dictInsert_ne _ _ _ _ (Ne.symm hid)]
        exact hnm
    · rw [dictGet_dictInsert_ne _ _ _ _ (Ne.symm hk)]
      exact h

theorem personalGroups_lookup (krs : List KrRow) (umap : List (String × String)) :
    ∀ (l : List GoalRow) (pg : List (String × List (String × GoalNode))) (g : GoalRow),
      g ∈ l →
      ∃ nm, dictGet
        ((dictGet (l.foldl (personalStep krs umap) pg) (personalGroupName g)).getD [])
        g.id = some ⟨nm, mkKrsDict umap (krsForGoal krs g.id)⟩ := by
  intro l
  induction l with
  | nil => exact fun pg g h => absurd h (List.not_mem_nil g)
  | cons a l2 ih =>
    intro pg g hmem
    rw [List.foldl_cons]
    rcases List.mem_cons.mp hmem with rfl | h2
    · refine personalGroups_lookup_pres krs umap l2 _ _ _ ?_
      rw [personalStep, dictGet_dictInsert_self]
      simp only [Option.getD_some]
      exact ⟨g.name, by rw [dictGet_dictInsert_self]; rfl⟩
    · exact ih _ g h2

theorem foldl_personalStep_ne_nil (krs : List KrRow) (umap : List (String × String)) :
    ∀ (l : List GoalRow) (pg : List (String × List (String × GoalNode))),
      pg ≠ [] → l.foldl (personalStep krs umap) pg ≠ []
  | [], _, h => h
  | g :: gs, pg, _ => by
    rw [List.foldl_cons]
    refine foldl_personalStep_ne_nil krs umap gs _ ?_
    rw [personalStep]
    exact dictInsert_ne_nil _ _ _

theorem personalGroupsOf_ne_nil (goals : List GoalRow) (krs : List KrRow)
    (umap : List (String × String)) (h : personalGoals goals ≠ []) :
    personalGroupsOf goals krs umap ≠ [] := by
  rw [personalGroupsOf]
  cases hpg : personalGoals goals with
  | nil => exact absurd hpg h
  | cons g gs =>
    rw [List.foldl_cons]
    refine foldl_personalStep_ne_nil krs umap gs _ ?_
    rw [personalStep]
    exact dictInsert_ne_nil _ _ _

/-- Claim C5, corrected (amended claim): a goal whose target_id is absent
("") or "0" is routed directly — with no secondary-membership retry — to
the personal branch, grouped under its team/dept id via the static
mappings (team first, dept second, "Unknown Group" when neither
resolves); the PERSONAL node then appears in the final tree whenever at
least one personal goal exists.  (Goals with a non-empty, non-"0"
target_id that fails primary resolution are silently dropped instead —
see the counterexample and claim C10.) -/
theorem personal_bucket_routing (targets : List TargetRow) (goals : List GoalRow)
    (krs : List KrRow) (umap : List (String × String)) (g : GoalRow)
    (hg : g ∈ goals) (h0 : g.target_id = "" ∨ g.target_id = "0") :
    g ∈ personalGoals goals ∧
    (∃ nm, dictGet
        ((dictGet (personalGroupsOf goals krs umap) (personalGroupName g)).getD [])
        g.id = some ⟨nm, mkKrsDict umap (krsForGoal krs g.id)⟩) ∧
    (g.team_id = "" → g.dept_id = "" → personalGroupName g = "Unknown Group") ∧
    (personalGoals goals ≠ [] →
      dictGet (buildTree targets goals krs umap) "PERSONAL" =
        some (TreeNode.personal "Mục tiêu cá nhân" (personalGroupsOf goals krs umap))) := by
  have hmem : g ∈ personalGoals goals := by
    rcases h0 with h | h <;>
      simp [personalGoals, List.mem_filter, hg, validTargetId, h]
  refine ⟨hmem, ?_, ?_, ?_⟩
  · rw [personalGroupsOf]
    exact personalGroups_lookup krs umap (personalGoals goals) [] g hmem
  · intro ht hd
    simp [personalGroupName, ht, hd]
  · intro hne
    simp only [buildTree]
    rw [if_neg hne, if_neg (personalGroupsOf_ne_nil goals krs umap hne)]
    exact dictGet_dictInsert_self _ _ _

/-- Counterexample to claim C5 as stated: target "10" carries goal "G1"
in its secondary membership list (list_goal_id), and goal "G1" has the
unresolvable target_id "99".  The claim says the goal is retried against
the secondary membership lists and, failing that, placed in the personal
branch; the built tree is instead empty — the goal is attached nowhere
and the tree builder never reads list_goal_id. -/
theorem secondary_membership_retry_refuted :
    buildTree [⟨"10", "c1", "Co", "Tname", "team", "", "", ["G1"]⟩]
      [⟨"G1", "Goal1", "99", "", ""⟩] [] [] = [] ∧
    "G1" ∈ (⟨"10", "c1", "Co", "Tname", "team", "", "", ["G1"]⟩ : TargetRow).list_goal_id ∧
    (⟨"G1", "Goal1", "99", "", ""⟩ : GoalRow).id = "G1" := by
  decide

/-- Witness for the amended claim C5: a goal with target_id "0" and no
team/dept id lands in the personal branch under "Unknown Group". -/
theorem personal_bucket_routing_witness :
    ((⟨"g1", "My Goal", "0", "", ""⟩ : GoalRow) ∈
        ([⟨"g1", "My Goal", "0", "", ""⟩] : List GoalRow) ∧
      (⟨"g1", "My Goal", "0", "", ""⟩ : GoalRow).target_id = "0") ∧
    personalGroupName ⟨"g1", "My Goal", "0", "", ""⟩ = "Unknown Group" ∧
    dictGet (buildTree [] [⟨"g1", "My Goal", "0", "", ""⟩] [] []) "PERSONAL" =
      some (TreeNode.personal "Mục tiêu cá nhân"
        (personalGroupsOf [⟨"g1", "My Goal", "0", "", ""⟩] [] [])) ∧
    buildTree [] [⟨"g1", "My Goal", "0", "", ""⟩] [] [] =
      [("PERSONAL", TreeNode.personal "Mục tiêu cá nhân"
        [("Unknown Group", [("g1", ⟨"My Goal", []⟩)])])] := by
  have h := personal_bucket_routing [] [⟨"g1", "My Goal", "0", "", ""⟩] [] []
    ⟨"g1", "My Goal", "0", "", ""⟩ (by decide) (Or.inr rfl)
  exact ⟨⟨by decide, rfl⟩, h.2.2.1 rfl rfl, h.2.2.2 (by decide), by decide⟩

end OKR
